import Mathlib

/-
Verification of the per-cell, per-timestep state-transition engine of the
wflow_w3 model (src/wflow/wflow_w3.py, class WflowModel, method dynamic),
shallowly embedded over the real numbers.  PCRaster map operations act
cell-wise, so every map expression is modelled as a real-valued function of
the cell's scalars; pcr.ifthenelse becomes if-then-else, pcr.max/pcr.min
become max/min, pcr.scalar(cond) becomes an if-then-else indicator, and
** becomes real power.
-/

namespace W3

noncomputable section

open Real
open scoped Classical

/-- Hyperbolic tangent as defined by the helper pcr_tanh in wflow_w3.py
(lines 58-63): (exp x - exp (-x)) / (exp x + exp (-x)). -/
def pcrTanh (x : ℝ) : ℝ := (Real.exp x - Real.exp (-x)) / (Real.exp x + Real.exp (-x))

/-- Result of one soil-layer water-balance update: new storage, vertical
drainage to the layer below, lateral interflow, and the applied extraction. -/
structure LayerOut where
  S : ℝ
  drain : ℝ
  iflow : ℝ
  U : ℝ

/-- Geometric-mean conductivity Km = (Ka*Kb) ** 0.5 of a layer and the layer
below it (wflow_w3.py lines 1065 and 1100). -/
def Km (Ka Kb : ℝ) : ℝ := Real.sqrt (Ka * Kb)

/-- General-case storage solution: the root (-B + (B^2 - 4*A*C) ** 0.5)/(2*A)
with A = Km/Smax^2, B = 1, C = -(S + I - U) (wflow_w3.py lines 1066-1069 and
1101-1104).  Real division and square root are total here (x/0 = 0 and
sqrt of a negative is 0), whereas at Smax = 0, Km = 0 or a negative
discriminant the code's arithmetic is undefined (missing values); the
theorems below keep their hypotheses inside the code's defined regime. -/
def quadRoot (S Smax Ka Kb I U : ℝ) : ℝ :=
  (-1 + Real.sqrt (1 - 4 * (Km Ka Kb / Smax ^ 2) * (-(S + I - U)))) /
    (2 * (Km Ka Kb / Smax ^ 2))

/-- Top-soil-layer update (wflow_w3.py lines 1060-1092).  Arguments: prior
storage S, capacity Smax, conductivity of the layer Ka and of the layer
below Kb, inflow I, extraction U, and the drainage/interflow partition
coefficient Rh.  The depletion test compares the prior storage
(`imap = (self.S0 + self.I) <= Es`, line 1073). -/
def topLayer (S Smax Ka Kb I U Rh : ℝ) : LayerOut :=
  let Sq := quadRoot S Smax Ka Kb I U
  let Dq := (1 - Rh) * Km Ka Kb * (Sq / Smax) ^ 2
  let Fq := Rh * Km Ka Kb * (Sq / Smax) ^ 2
  -- depletion case
  let U1 := if S + I ≤ U then S + I else U
  let S1 := if S + I ≤ U then 0 else Sq
  let D1 := if S + I ≤ U then 0 else Dq
  let F1 := if S + I ≤ U then 0 else Fq
  -- saturation case (tested against the possibly branch-adjusted extraction)
  let sat := Smax - S + Ka ≤ I - U1
  let D2 := if sat then (1 - Rh) * Ka else D1
  let F2 := if sat then Rh * Ka + (S - Smax - Ka + I - U1) else F1
  let S2 := if sat then Smax else S1
  -- clamp and mass-balance closure
  let S3 := max 0 (min S2 Smax)
  let mb := S + I - U1 - D2 - F2 - S3
  ⟨S3, D2 + (1 - Rh) * mb, F2 + Rh * mb, U1⟩

/-- Shallow-root-zone layer update (wflow_w3.py lines 1095-1127).  Identical
to the top layer block except that the depletion test compares the freshly
computed quadratic-root storage, not the prior one (`imap = (Ss + D0) <= Us`,
line 1108, where the local `Ss` holds the root from line 1104 while
`self.Ss` is the prior storage). -/
def shallowLayer (S Smax Ka Kb I U Rh : ℝ) : LayerOut :=
  let Sq := quadRoot S Smax Ka Kb I U
  let Dq := (1 - Rh) * Km Ka Kb * (Sq / Smax) ^ 2
  let Fq := Rh * Km Ka Kb * (Sq / Smax) ^ 2
  -- depletion case (tests the quadratic-root storage)
  let dep := Sq + I ≤ U
  let U1 := if dep then S + I else U
  let S1 := if dep then 0 else Sq
  let D1 := if dep then 0 else Dq
  let F1 := if dep then 0 else Fq
  -- saturation case
  let sat := Smax - S + Ka ≤ I - U1
  let D2 := if sat then (1 - Rh) * Ka else D1
  let F2 := if sat then Rh * Ka + (S - Smax - Ka + I - U1) else F1
  let S2 := if sat then Smax else S1
  -- clamp and mass-balance closure
  let S3 := max 0 (min S2 Smax)
  let mb := S + I - U1 - D2 - F2 - S3
  ⟨S3, D2 + (1 - Rh) * mb, F2 + Rh * mb, U1⟩

/-- Deep-root-zone layer update (wflow_w3.py lines 1129-1151).  Same scheme
with A = Kdsat/Sdmax^2, interflow initialised to 0*Dd; the depletion block
does not touch the interflow, in the saturation case the interflow receives
the above-capacity excess (line 1145), and the closure residual is added
wholly to the drainage (line 1150). -/
def deepLayer (S Smax Kd I U : ℝ) : LayerOut :=
  let A := Kd / Smax ^ 2
  let Sq := (-1 + Real.sqrt (1 - 4 * A * (-(S + I - U)))) / (2 * A)
  let Dq := Kd * (Sq / Smax) ^ 2
  let Fq := 0 * Dq
  -- depletion case (tests the quadratic-root storage, line 1138)
  let dep := Sq + I ≤ U
  let U1 := if dep then S + I else U
  let S1 := if dep then 0 else Sq
  let D1 := if dep then 0 else Dq
  -- saturation case
  let sat := Smax - S + Kd ≤ I - U1
  let D2 := if sat then Kd else D1
  let F2 := if sat then S - Smax - Kd + I - U1 else Fq
  let S2 := if sat then Smax else S1
  -- clamp and mass-balance closure (residual goes into drainage only)
  let S3 := max 0 (min S2 Smax)
  let mb := S + I - U1 - D2 - F2 - S3
  ⟨S3, D2 + mb, F2, U1⟩

/-- C1: for each of the three soil layers, after the closure step the layer
mass balance is exact: prior storage + inflow - applied extraction -
corrected drainage - corrected interflow - new (clamped) storage = 0.  The
residual redistribution weights (1-Rh) and Rh (and 1 and 0 for the deep
layer) sum to one, so the identity holds for every input. -/
theorem soil_mass_closure (S Smax Ka Kb I U Rh : ℝ) :
    S + I - (topLayer S Smax Ka Kb I U Rh).U - (topLayer S Smax Ka Kb I U Rh).drain -
        (topLayer S Smax Ka Kb I U Rh).iflow - (topLayer S Smax Ka Kb I U Rh).S = 0 ∧
    S + I - (shallowLayer S Smax Ka Kb I U Rh).U - (shallowLayer S Smax Ka Kb I U Rh).drain -
        (shallowLayer S Smax Ka Kb I U Rh).iflow - (shallowLayer S Smax Ka Kb I U Rh).S = 0 ∧
    S + I - (deepLayer S Smax Ka I U).U - (deepLayer S Smax Ka I U).drain -
        (deepLayer S Smax Ka I U).iflow - (deepLayer S Smax Ka I U).S = 0 := by
  refine ⟨?_, ?_, ?_⟩ <;>
    simp only [topLayer, shallowLayer, deepLayer] <;> ring

/-- Storage update exactly as claim C2 words it: the positive quadratic root
S' = (-1 + sqrt (1 + 4*A*(S+I-U)))/(2*A) with A = sqrt (Ka*Kb)/Smax^2.
Transcribed from the spec for comparison with the code. -/
def specRoot (S Smax Ka Kb I U : ℝ) : ℝ :=
  (-1 + Real.sqrt (1 + 4 * (Real.sqrt (Ka * Kb) / Smax ^ 2) * (S + I - U))) /
    (2 * (Real.sqrt (Ka * Kb) / Smax ^ 2))

/-- Vertical drainage exactly as claim C2 words it: (1-Rh) times
sqrt (Ka*Kb) * (S'/Smax)^2. -/
def specDrain (S Smax Ka Kb I U Rh : ℝ) : ℝ :=
  (1 - Rh) * (Real.sqrt (Ka * Kb) * (specRoot S Smax Ka Kb I U / Smax) ^ 2)

/-- Lateral interflow exactly as claim C2 words it: Rh times
sqrt (Ka*Kb) * (S'/Smax)^2. -/
def specIflow (S Smax Ka Kb I U Rh : ℝ) : ℝ :=
  Rh * (Real.sqrt (Ka * Kb) * (specRoot S Smax Ka Kb I U / Smax) ^ 2)

/-- The code's root expression and the spec's differ only by a ring
rearrangement inside the square root. -/
theorem quadRoot_eq_spec (S Smax Ka Kb I U : ℝ) :
    quadRoot S Smax Ka Kb I U = specRoot S Smax Ka Kb I U := by
  unfold quadRoot specRoot Km
  rw [show 1 - 4 * (Real.sqrt (Ka * Kb) / Smax ^ 2) * (-(S + I - U)) =
      1 + 4 * (Real.sqrt (Ka * Kb) / Smax ^ 2) * (S + I - U) by ring]

theorem km_pos {Ka Kb : ℝ} (hKa : 0 < Ka) (hKb : 0 < Kb) : 0 < Km Ka Kb :=
  Real.sqrt_pos.2 (mul_pos hKa hKb)

theorem root_nonneg {A net : ℝ} (hA : 0 < A) (hnet : 0 ≤ net) :
    0 ≤ (-1 + Real.sqrt (1 - 4 * A * (-net))) / (2 * A) := by
  have h1 : (1:ℝ) ≤ 1 - 4 * A * (-net) := by nlinarith
  have hs : (1:ℝ) ≤ Real.sqrt (1 - 4 * A * (-net)) := by
    have h := Real.sqrt_le_sqrt h1
    rwa [Real.sqrt_one] at h
  exact div_nonneg (by linarith) (by linarith)

theorem root_nonpos {A net : ℝ} (hA : 0 < A) (hnet : net ≤ 0) :
    (-1 + Real.sqrt (1 - 4 * A * (-net))) / (2 * A) ≤ 0 := by
  have h1 : 1 - 4 * A * (-net) ≤ 1 := by nlinarith
  have hs : Real.sqrt (1 - 4 * A * (-net)) ≤ 1 := by
    have h := Real.sqrt_le_sqrt h1
    rwa [Real.sqrt_one] at h
  exact div_nonpos_of_nonpos_of_nonneg (by linarith) (by linarith)

/-- The root solves its quadratic: A*S'^2 + S' = S + I - U whenever the
discriminant is nonnegative. -/
theorem root_sq_identity {A net : ℝ} (hA : A ≠ 0) (hd : 0 ≤ 1 - 4 * A * (-net)) :
    A * ((-1 + Real.sqrt (1 - 4 * A * (-net))) / (2 * A)) ^ 2 +
      (-1 + Real.sqrt (1 - 4 * A * (-net))) / (2 * A) = net := by
  rw [show 1 - 4 * A * (-net) = 1 + 4 * A * net by ring] at hd ⊢
  have hs : Real.sqrt (1 + 4 * A * net) ^ 2 = 1 + 4 * A * net := Real.sq_sqrt hd
  field_simp
  linear_combination (2 * A ^ 2) * hs

/-- C2 (amended): in the general case (neither the depletion nor the
saturation branch fires) AND provided the quadratic root does not exceed
the layer capacity — without which the clamp and the closure correction
modify the storage and the fluxes — the top and shallow layer updates
produce exactly the storage, drainage and interflow formulas stated in the
claim: S' = (-1 + sqrt (1 + 4*A*(S+I-U)))/(2*A) with
A = sqrt (Ka*Kb)/Smax^2, drainage (1-Rh)*sqrt (Ka*Kb)*(S'/Smax)^2 and
interflow Rh*sqrt (Ka*Kb)*(S'/Smax)^2; the closure correction vanishes. -/
theorem general_case_formula (S Smax Ka Kb I U Rh : ℝ)
    (hSmax : 0 < Smax) (hKa : 0 < Ka) (hKb : 0 < Kb)
    (hdep : ¬ (S + I ≤ U))
    (hdepRoot : ¬ (quadRoot S Smax Ka Kb I U + I ≤ U))
    (hsat : ¬ (Smax - S + Ka ≤ I - U))
    (hroot : quadRoot S Smax Ka Kb I U ≤ Smax) :
    ((topLayer S Smax Ka Kb I U Rh).S = specRoot S Smax Ka Kb I U ∧
     (topLayer S Smax Ka Kb I U Rh).drain = specDrain S Smax Ka Kb I U Rh ∧
     (topLayer S Smax Ka Kb I U Rh).iflow = specIflow S Smax Ka Kb I U Rh) ∧
    ((shallowLayer S Smax Ka Kb I U Rh).S = specRoot S Smax Ka Kb I U ∧
     (shallowLayer S Smax Ka Kb I U Rh).drain = specDrain S Smax Ka Kb I U Rh ∧
     (shallowLayer S Smax Ka Kb I U Rh).iflow = specIflow S Smax Ka Kb I U Rh) := by
  have hKm : 0 < Km Ka Kb := km_pos hKa hKb
  have hA : 0 < Km Ka Kb / Smax ^ 2 := div_pos hKm (by positivity)
  have hnet : 0 ≤ S + I - U := by push_neg at hdep; linarith
  have h0 : 0 ≤ quadRoot S Smax Ka Kb I U := root_nonneg hA hnet
  have hd : 0 ≤ 1 - 4 * (Km Ka Kb / Smax ^ 2) * (-(S + I - U)) := by nlinarith
  have hid : Km Ka Kb / Smax ^ 2 * quadRoot S Smax Ka Kb I U ^ 2 +
      quadRoot S Smax Ka Kb I U = S + I - U := root_sq_identity (ne_of_gt hA) hd
  have hclamp : max 0 (min (quadRoot S Smax Ka Kb I U) Smax) = quadRoot S Smax Ka Kb I U := by
    rw [min_eq_left hroot, max_eq_right h0]
  have hsplit : (1 - Rh) * Km Ka Kb * (quadRoot S Smax Ka Kb I U / Smax) ^ 2 +
      Rh * Km Ka Kb * (quadRoot S Smax Ka Kb I U / Smax) ^ 2 =
      Km Ka Kb / Smax ^ 2 * quadRoot S Smax Ka Kb I U ^ 2 := by
    field_simp
    ring
  have hmb : S + I - U - (1 - Rh) * Km Ka Kb * (quadRoot S Smax Ka Kb I U / Smax) ^ 2 -
      Rh * Km Ka Kb * (quadRoot S Smax Ka Kb I U / Smax) ^ 2 -
      max 0 (min (quadRoot S Smax Ka Kb I U) Smax) = 0 := by
    rw [hclamp]; linarith [hsplit, hid]
  have hdrain : Km Ka Kb * (quadRoot S Smax Ka Kb I U / Smax) ^ 2 =
      Real.sqrt (Ka * Kb) * (specRoot S Smax Ka Kb I U / Smax) ^ 2 := by
    rw [← quadRoot_eq_spec, Km]
  refine ⟨⟨?_, ?_, ?_⟩, ?_, ?_, ?_⟩ <;>
      simp only [topLayer, shallowLayer, if_neg hdep, if_neg hdepRoot, if_neg hsat]
  · rw [hclamp, quadRoot_eq_spec]
  · rw [hmb, specDrain, ← hdrain]; ring
  · rw [hmb, specIflow, ← hdrain]; ring
  · rw [hclamp, quadRoot_eq_spec]
  · rw [hmb, specDrain, ← hdrain]; ring
  · rw [hmb, specIflow, ← hdrain]; ring

theorem sqrt_sixteen : Real.sqrt ((4:ℝ) * 4) = 4 := by
  rw [show ((4:ℝ) * 4) = 4 ^ 2 by norm_num]
  exact Real.sqrt_sq (by norm_num)

theorem sqrt_nine : Real.sqrt (9:ℝ) = 3 := by
  rw [show (9:ℝ) = 3 ^ 2 by norm_num]
  exact Real.sqrt_sq (by norm_num)

theorem quadRoot_val : quadRoot (3/2) 2 4 4 1 (1/2) = 1 := by
  rw [quadRoot, Km, sqrt_sixteen]
  rw [show 1 - 4 * ((4:ℝ) / 2 ^ 2) * (-(3/2 + 1 - 1/2)) = 9 by norm_num, sqrt_nine]
  norm_num

/-- Witness for C2 at S = 3/2, Smax = 2, Ka = Kb = 4, I = 1, U = 1/2, Rh = 0:
the quadratic root is 1 and all side conditions hold. -/
theorem general_case_formula_witness :
    ((0:ℝ) < 2 ∧ (0:ℝ) < 4 ∧ ¬ ((3/2:ℝ) + 1 ≤ 1/2) ∧
      ¬ (quadRoot (3/2) 2 4 4 1 (1/2) + 1 ≤ 1/2) ∧
      ¬ ((2:ℝ) - 3/2 + 4 ≤ 1 - 1/2) ∧ quadRoot (3/2) 2 4 4 1 (1/2) ≤ 2) ∧
    (((topLayer (3/2) 2 4 4 1 (1/2) 0).S = specRoot (3/2) 2 4 4 1 (1/2) ∧
      (topLayer (3/2) 2 4 4 1 (1/2) 0).drain = specDrain (3/2) 2 4 4 1 (1/2) 0 ∧
      (topLayer (3/2) 2 4 4 1 (1/2) 0).iflow = specIflow (3/2) 2 4 4 1 (1/2) 0) ∧
     ((shallowLayer (3/2) 2 4 4 1 (1/2) 0).S = specRoot (3/2) 2 4 4 1 (1/2) ∧
      (shallowLayer (3/2) 2 4 4 1 (1/2) 0).drain = specDrain (3/2) 2 4 4 1 (1/2) 0 ∧
      (shallowLayer (3/2) 2 4 4 1 (1/2) 0).iflow = specIflow (3/2) 2 4 4 1 (1/2) 0)) := by
  refine ⟨⟨by norm_num, by norm_num, by norm_num, by rw [quadRoot_val]; norm_num,
    by norm_num, by rw [quadRoot_val]; norm_num⟩, ?_⟩
  exact general_case_formula (3/2) 2 4 4 1 (1/2) 0 (by norm_num) (by norm_num) (by norm_num)
    (by norm_num) (by rw [quadRoot_val]; norm_num) (by norm_num)
    (by rw [quadRoot_val]; norm_num)

theorem sqrt_twofive : Real.sqrt (25:ℝ) = 5 := by
  rw [show (25:ℝ) = 5 ^ 2 by norm_num]
  exact Real.sqrt_sq (by norm_num)

theorem km_div_val : Km 25 (1/25) = 1 := by
  rw [Km, show (25:ℝ) * (1/25) = 1 by norm_num, Real.sqrt_one]

theorem quadRoot_val3 : quadRoot 1 1 25 (1/25) 5 0 = 2 := by
  rw [quadRoot, km_div_val]
  rw [show 1 - 4 * ((1:ℝ) / 1 ^ 2) * (-(1 + 5 - 0)) = 25 by norm_num, sqrt_twofive]
  norm_num

theorem specRoot_val3 : specRoot 1 1 25 (1/25) 5 0 = 2 := by
  rw [specRoot, show (25:ℝ) * (1/25) = 1 by norm_num, Real.sqrt_one]
  rw [show 1 + 4 * ((1:ℝ) / 1 ^ 2) * (1 + 5 - 0) = 25 by norm_num, sqrt_twofive]
  norm_num

theorem specDrain_val3 : specDrain 1 1 25 (1/25) 5 0 0 = 4 := by
  rw [specDrain, specRoot_val3, show (25:ℝ) * (1/25) = 1 by norm_num, Real.sqrt_one]
  norm_num

/-- C2 counterexample: with S = 1, Smax = 1, Ka = 25, Kb = 1/25 (so
Km = 1), I = 5, U = 0 and Rh = 0, neither the depletion test (prior- or
root-based) nor the saturation test fires, so per the claim the general
case applies; yet the quadratic root 2 exceeds the capacity 1, the clamp
forces the storage to 1 and the closure shifts the residual into the
drainage, which becomes 5 instead of the claim's formula value
sqrt (Ka*Kb)*(2/1)^2 = 4.  All arithmetic in this trace is free of missing
values. -/
theorem clamped_general_counterexample :
    ¬ ((1:ℝ) + 5 ≤ 0) ∧
    ¬ (quadRoot 1 1 25 (1/25) 5 0 + 5 ≤ 0) ∧
    ¬ ((1:ℝ) - 1 + 25 ≤ 5 - 0) ∧
    specRoot 1 1 25 (1/25) 5 0 = 2 ∧
    specDrain 1 1 25 (1/25) 5 0 0 = 4 ∧
    (topLayer 1 1 25 (1/25) 5 0 0).S = 1 ∧
    (topLayer 1 1 25 (1/25) 5 0 0).drain = 5 ∧
    (shallowLayer 1 1 25 (1/25) 5 0 0).S = 1 ∧
    (shallowLayer 1 1 25 (1/25) 5 0 0).drain = 5 := by
  refine ⟨by norm_num, by rw [quadRoot_val3]; norm_num, by norm_num,
    specRoot_val3, specDrain_val3, ?_, ?_, ?_, ?_⟩ <;>
    · simp only [topLayer, shallowLayer, quadRoot_val3, km_div_val]
      norm_num [min_def, max_def]

theorem sqrt_eightyone : Real.sqrt ((9:ℝ) * 9) = 9 := by
  rw [show ((9:ℝ) * 9) = 9 ^ 2 by norm_num]
  exact Real.sqrt_sq (by norm_num)

theorem quadRoot_val2 : quadRoot 3 3 9 9 0 1 = 1 := by
  rw [quadRoot, Km, sqrt_eightyone]
  rw [show 1 - 4 * ((9:ℝ) / 3 ^ 2) * (-(3 + 0 - 1)) = 9 by norm_num, sqrt_nine]
  norm_num

/-- C3 counterexample: for the shallow layer with S = 3, Smax = 3,
Ka = Kb = 9, I = 0, U = 1, Rh = 0, the prior-storage condition S + I ≤ U is
false (3 > 1), yet the code's depletion branch fires because it tests the
quadratic-root storage (which is 1, and 1 + 0 ≤ 1): the applied extraction
is capped to S + I = 3 and the new storage is forced to 0, not the root 1
the general case would give.  So the depletion branch does not trigger
exactly on the prior-storage condition for every layer. -/
theorem shallow_depletion_counterexample :
    ¬ ((3:ℝ) + 0 ≤ 1) ∧
    quadRoot 3 3 9 9 0 1 = 1 ∧
    (shallowLayer 3 3 9 9 0 1 0).S = 0 ∧
    (shallowLayer 3 3 9 9 0 1 0).U = 3 := by
  refine ⟨by norm_num, quadRoot_val2, ?_, ?_⟩ <;>
    · simp only [shallowLayer, quadRoot_val2]
      norm_num [min_def, max_def]

/-- C3 (amended): the depletion branch of the top layer triggers on the
prior-storage condition S + I ≤ U, while the shallow and deep layers
trigger on the quadratic-root condition Sq + I ≤ U; whenever the branch
triggers (given positive capacity and conductivities, so the saturation
override cannot fire afterwards) the applied extraction is capped to S + I
and the resulting storage, drainage and interflow are all zero.  In
particular, with S = 0, I = 0 and U > 0 the applied extraction, storage,
drainage and interflow are all zero for all three layers. -/
theorem topLayer_dep_outcome (S Smax Ka Kb I U Rh : ℝ) (hpos : 0 < Smax + Ka)
    (hdep : S + I ≤ U) : topLayer S Smax Ka Kb I U Rh = ⟨0, 0, 0, S + I⟩ := by
  have hsat1 : ¬ (Smax - S + Ka ≤ I - (S + I)) := by intro h; linarith
  simp only [topLayer, if_pos hdep, if_neg hsat1, max_eq_left (min_le_left (0:ℝ) Smax),
    LayerOut.mk.injEq]
  exact ⟨trivial, by ring, by ring, trivial⟩

theorem shallowLayer_dep_outcome (S Smax Ka Kb I U Rh : ℝ) (hpos : 0 < Smax + Ka)
    (hdep : quadRoot S Smax Ka Kb I U + I ≤ U) :
    shallowLayer S Smax Ka Kb I U Rh = ⟨0, 0, 0, S + I⟩ := by
  have hsat1 : ¬ (Smax - S + Ka ≤ I - (S + I)) := by intro h; linarith
  simp only [shallowLayer, if_pos hdep, if_neg hsat1, max_eq_left (min_le_left (0:ℝ) Smax),
    LayerOut.mk.injEq]
  exact ⟨trivial, by ring, by ring, trivial⟩

theorem deepLayer_dep_outcome (S Smax Kd I U : ℝ) (hpos : 0 < Smax + Kd)
    (hdep : (-1 + Real.sqrt (1 - 4 * (Kd / Smax ^ 2) * (-(S + I - U)))) /
      (2 * (Kd / Smax ^ 2)) + I ≤ U) :
    deepLayer S Smax Kd I U = ⟨0, 0, 0, S + I⟩ := by
  have hsat1 : ¬ (Smax - S + Kd ≤ I - (S + I)) := by intro h; linarith
  simp only [deepLayer, if_pos hdep, if_neg hsat1, max_eq_left (min_le_left (0:ℝ) Smax),
    LayerOut.mk.injEq]
  exact ⟨trivial, by ring, by ring, trivial⟩

theorem depletion_branch_outcome (S Smax Ka Kb I U Rh : ℝ)
    (hSmax : 0 < Smax) (hKa : 0 < Ka) (hKb : 0 < Kb) :
    (S + I ≤ U → topLayer S Smax Ka Kb I U Rh = ⟨0, 0, 0, S + I⟩) ∧
    (quadRoot S Smax Ka Kb I U + I ≤ U →
      shallowLayer S Smax Ka Kb I U Rh = ⟨0, 0, 0, S + I⟩) ∧
    ((-1 + Real.sqrt (1 - 4 * (Ka / Smax ^ 2) * (-(S + I - U)))) /
        (2 * (Ka / Smax ^ 2)) + I ≤ U →
      deepLayer S Smax Ka I U = ⟨0, 0, 0, S + I⟩) ∧
    (S = 0 → I = 0 → 0 < U →
      topLayer S Smax Ka Kb I U Rh = ⟨0, 0, 0, 0⟩ ∧
      shallowLayer S Smax Ka Kb I U Rh = ⟨0, 0, 0, 0⟩ ∧
      deepLayer S Smax Ka I U = ⟨0, 0, 0, 0⟩) := by
  have hpos : 0 < Smax + Ka := by linarith
  refine ⟨topLayer_dep_outcome S Smax Ka Kb I U Rh hpos,
    shallowLayer_dep_outcome S Smax Ka Kb I U Rh hpos,
    deepLayer_dep_outcome S Smax Ka I U hpos, ?_⟩
  intro hS0 hI0 hU
  subst hS0; subst hI0
  have hA : 0 < Km Ka Kb / Smax ^ 2 := div_pos (km_pos hKa hKb) (by positivity)
  have hAd : 0 < Ka / Smax ^ 2 := div_pos hKa (by positivity)
  have hqle : quadRoot 0 Smax Ka Kb 0 U ≤ 0 := root_nonpos hA (by linarith)
  have hqdle : (-1 + Real.sqrt (1 - 4 * (Ka / Smax ^ 2) * (-(0 + 0 - U)))) /
      (2 * (Ka / Smax ^ 2)) ≤ 0 := root_nonpos hAd (by linarith)
  refine ⟨?_, ?_, ?_⟩
  · have h := topLayer_dep_outcome 0 Smax Ka Kb 0 U Rh hpos (by linarith)
    simpa using h
  · have h := shallowLayer_dep_outcome 0 Smax Ka Kb 0 U Rh hpos (by linarith)
    simpa using h
  · have h := deepLayer_dep_outcome 0 Smax Ka 0 U hpos (by linarith)
    simpa using h

/-- Witness for C3's amended theorem at Smax = 1, Ka = Kb = 1. -/
theorem depletion_branch_outcome_witness :
    (0:ℝ) < 1 ∧
    ((1 + 0 ≤ (2:ℝ) → topLayer 1 1 1 1 0 2 0 = ⟨0, 0, 0, 1 + 0⟩) ∧
     (quadRoot 1 1 1 1 0 2 + 0 ≤ 2 → shallowLayer 1 1 1 1 0 2 0 = ⟨0, 0, 0, 1 + 0⟩) ∧
     ((-1 + Real.sqrt (1 - 4 * ((1:ℝ) / 1 ^ 2) * (-(1 + 0 - 2)))) /
         (2 * ((1:ℝ) / 1 ^ 2)) + 0 ≤ 2 →
       deepLayer 1 1 1 0 2 = ⟨0, 0, 0, 1 + 0⟩) ∧
     ((1:ℝ) = 0 → (0:ℝ) = 0 → (0:ℝ) < 2 →
       topLayer 1 1 1 1 0 2 0 = ⟨0, 0, 0, 0⟩ ∧
       shallowLayer 1 1 1 1 0 2 0 = ⟨0, 0, 0, 0⟩ ∧
       deepLayer 1 1 1 0 2 = ⟨0, 0, 0, 0⟩)) :=
  ⟨by norm_num,
   depletion_branch_outcome 1 1 1 1 0 2 0 (by norm_num) (by norm_num) (by norm_num)⟩

/-- C4 counterexample: with Smax = -2, Ka = Kb = 1, S = 1, I = 0, U = 1,
Rh = 0, both the claim's depletion condition (1 + 0 ≤ 1) and its saturation
condition (-2 - 1 + 1 ≤ 0 - 1) hold and the code's arithmetic is free of
missing values (A = 1/4, discriminant 1); the depletion branch fires first
but the saturation override then also fires, and after the clamp and the
closure the outcome has drainage -1 and interflow 1 — not the depletion
outcome of zero outflows.  So the claim fails as stated for an arbitrary
input on which both conditions hold. -/
theorem branch_overlap_counterexample :
    ((1:ℝ) + 0 ≤ 1) ∧ ((-2:ℝ) - 1 + 1 ≤ 0 - 1) ∧
    (topLayer 1 (-2) 1 1 0 1 0).S = 0 ∧
    (topLayer 1 (-2) 1 1 0 1 0).drain = -1 ∧
    (topLayer 1 (-2) 1 1 0 1 0).iflow = 1 := by
  have hKm : Km 1 1 = 1 := by rw [Km, show (1:ℝ) * 1 = 1 by norm_num, Real.sqrt_one]
  refine ⟨by norm_num, by norm_num, ?_, ?_, ?_⟩ <;>
    · simp only [topLayer, hKm]
      norm_num [min_def, max_def, Real.sqrt_one]

/-- C4 (amended): depletion is applied first and the saturation test is
then evaluated against the depletion-adjusted extraction.  For valid
parameters (Smax > 0, Ka ≥ 0) the depletion and saturation conditions can
never hold together; and whenever the depletion branch fires, as the code
tests it for each layer, the saturation override cannot subsequently fire
and the layer's outcome is the depletion outcome: extraction capped to
S + I, zero storage and zero outflows, for all three layers. -/
theorem branch_order_depletion_first (S Smax Ka Kb I U Rh : ℝ)
    (hSmax : 0 < Smax) (hKa : 0 ≤ Ka) :
    ¬ (S + I ≤ U ∧ Smax - S + Ka ≤ I - U) ∧
    (S + I ≤ U → topLayer S Smax Ka Kb I U Rh = ⟨0, 0, 0, S + I⟩) ∧
    (quadRoot S Smax Ka Kb I U + I ≤ U →
      shallowLayer S Smax Ka Kb I U Rh = ⟨0, 0, 0, S + I⟩) ∧
    ((-1 + Real.sqrt (1 - 4 * (Ka / Smax ^ 2) * (-(S + I - U)))) /
        (2 * (Ka / Smax ^ 2)) + I ≤ U →
      deepLayer S Smax Ka I U = ⟨0, 0, 0, S + I⟩) := by
  have hpos : 0 < Smax + Ka := by linarith
  refine ⟨?_, topLayer_dep_outcome S Smax Ka Kb I U Rh hpos,
    shallowLayer_dep_outcome S Smax Ka Kb I U Rh hpos,
    deepLayer_dep_outcome S Smax Ka I U hpos⟩
  rintro ⟨h1, h2⟩
  linarith

/-- Witness for C4's amended theorem at S = 1, Smax = 1, Ka = Kb = 1,
I = 0, U = 1: the depletion tests fire (the root is 0), the condition
overlap is refuted, and the three outcomes are the depletion outcome; the
arithmetic is free of division by zero and of negative discriminants. -/
theorem branch_order_depletion_first_witness :
    ((0:ℝ) < 1 ∧ (0:ℝ) ≤ 1) ∧
    ¬ ((1:ℝ) + 0 ≤ 1 ∧ (1:ℝ) - 1 + 1 ≤ 0 - 1) ∧
    topLayer 1 1 1 1 0 1 0 = ⟨0, 0, 0, 1 + 0⟩ ∧
    shallowLayer 1 1 1 1 0 1 0 = ⟨0, 0, 0, 1 + 0⟩ ∧
    deepLayer 1 1 1 0 1 = ⟨0, 0, 0, 1 + 0⟩ := by
  obtain ⟨h1, h2, h3, h4⟩ :=
    branch_order_depletion_first 1 1 1 1 0 1 0 (by norm_num) (by norm_num)
  have hone : Km 1 1 = 1 := by rw [Km, show (1:ℝ) * 1 = 1 by norm_num, Real.sqrt_one]
  have hq : quadRoot 1 1 1 1 0 1 = 0 := by
    rw [quadRoot, hone]
    norm_num [Real.sqrt_one]
  have hqd : (-1 + Real.sqrt (1 - 4 * ((1:ℝ) / 1 ^ 2) * (-(1 + 0 - 1)))) /
      (2 * ((1:ℝ) / 1 ^ 2)) = 0 := by norm_num [Real.sqrt_one]
  exact ⟨⟨by norm_num, by norm_num⟩, h1, h2 (by norm_num),
    h3 (by rw [hq]; norm_num), h4 (by rw [hqd]; norm_num)⟩

theorem sqrt_twentyfive : Real.sqrt (25:ℝ) = 5 := by
  rw [show (25:ℝ) = 5 ^ 2 by norm_num]
  exact Real.sqrt_sq (by norm_num)

/-- C6 counterexample: for the deep layer with S = 1, Smax = 1, Kd = 1,
I = 5, U = 0 the saturation branch fires and the interflow term IFd is set
to the above-capacity excess S - Smax - Kd + I - U = 4, not zero. -/
theorem deep_iflow_counterexample : (deepLayer 1 1 1 5 0).iflow = 4 := by
  have h : Real.sqrt (1 - 4 * ((1:ℝ) / 1 ^ 2) * (-(1 + 5 - 0))) = 5 := by
    rw [show 1 - 4 * ((1:ℝ) / 1 ^ 2) * (-(1 + 5 - 0)) = 25 by norm_num, sqrt_twentyfive]
  simp only [deepLayer, h]
  norm_num

/-- C6 (amended): the deep layer's interflow term is zero in the general and
depletion branches; in the saturation branch it equals the nonnegative
above-capacity excess S - Smax - Kd + I - U_applied, which is added to the
combined interflow and hence to runoff. -/
theorem deep_iflow_characterization (S Smax Kd I U : ℝ) :
    (deepLayer S Smax Kd I U).iflow =
      (if Smax - S + Kd ≤ I - (deepLayer S Smax Kd I U).U
       then S - Smax - Kd + I - (deepLayer S Smax Kd I U).U else 0) ∧
    0 ≤ (deepLayer S Smax Kd I U).iflow := by
  constructor
  · simp only [deepLayer]
    split_ifs <;> ring
  · simp only [deepLayer]
    split_ifs with h1 h2 h3 <;> linarith

/-- Groundwater store update and discharge (wflow_w3.py lines 1157-1162):
Sg receives the deep drainage minus groundwater evaporation and uptake,
Qg = min(max(Sg,0), (1-exp(-K_gw))*max(Sg,0)) is subtracted.
Returns (new Sg, Qg). -/
def gwStep (Sg Dd Eg0 Ug Kgw : ℝ) : ℝ × ℝ :=
  let Sg1 := Sg + (Dd - Eg0 - Ug)
  let Sgfd := max Sg1 0
  let Qg := min Sgfd ((1 - Real.exp (-Kgw)) * Sgfd)
  (Sg1 - Qg, Qg)

/-- Surface store update and total discharge (wflow_w3.py lines 1164-1169):
Sr = max(0, Sr + QR - Erl + Qg); Qtot = max(0, min(Sr, (1-exp(-K_rout))*Sr))
is subtracted.  Returns (new Sr, Qtot). -/
def srStep (Sr QR Erl Qg Krout : ℝ) : ℝ × ℝ :=
  let Sr1 := max 0 (Sr + QR - Erl + Qg)
  let Qtot := max 0 (min Sr1 ((1 - Real.exp (-Krout)) * Sr1))
  (Sr1 - Qtot, Qtot)

/-- C7: the groundwater discharge equals min(max(Sg,0), (1-exp(-K_gw))*max(Sg,0))
and is subtracted from Sg; the surface store is drawn down by
Qtot = max(0, min(Sr, (1-exp(-K_rout))*Sr)).  With all inflows zero and
positive recession constants, each store starting nonnegative strictly
decreases or stays at zero and never becomes negative. -/
theorem recession_monotone (Sg Sr Kgw Krout : ℝ)
    (hSg : 0 ≤ Sg) (hSr : 0 ≤ Sr) (hKg : 0 < Kgw) (hKr : 0 < Krout) :
    (gwStep Sg 0 0 0 Kgw).2 = min (max Sg 0) ((1 - Real.exp (-Kgw)) * max Sg 0) ∧
    (gwStep Sg 0 0 0 Kgw).1 = Sg - (gwStep Sg 0 0 0 Kgw).2 ∧
    0 ≤ (gwStep Sg 0 0 0 Kgw).1 ∧
    ((gwStep Sg 0 0 0 Kgw).1 < Sg ∨ (Sg = 0 ∧ (gwStep Sg 0 0 0 Kgw).1 = 0)) ∧
    0 ≤ (srStep Sr 0 0 0 Krout).1 ∧
    ((srStep Sr 0 0 0 Krout).1 < Sr ∨ (Sr = 0 ∧ (srStep Sr 0 0 0 Krout).1 = 0)) := by
  have hg0 : Sg + (0 - 0 - 0) = Sg := by ring
  have hr0 : Sr + 0 - 0 + 0 = Sr := by ring
  have heg : Real.exp (-Kgw) < 1 := by
    rw [← Real.exp_zero]
    exact Real.exp_lt_exp.2 (by linarith)
  have hegp : 0 < Real.exp (-Kgw) := Real.exp_pos _
  have her : Real.exp (-Krout) < 1 := by
    rw [← Real.exp_zero]
    exact Real.exp_lt_exp.2 (by linarith)
  have herp : 0 < Real.exp (-Krout) := Real.exp_pos _
  simp only [gwStep, srStep, hg0, hr0, max_eq_left hSg, max_eq_right hSr]
  have hqg : min Sg ((1 - Real.exp (-Kgw)) * Sg) = (1 - Real.exp (-Kgw)) * Sg := by
    apply min_eq_right
    nlinarith
  have hqr : max 0 (min Sr ((1 - Real.exp (-Krout)) * Sr)) = (1 - Real.exp (-Krout)) * Sr := by
    rw [min_eq_right (by nlinarith)]
    exact max_eq_right (by nlinarith)
  rw [hqg, hqr]
  refine ⟨trivial, trivial, by nlinarith, ?_, by nlinarith, ?_⟩
  · rcases eq_or_lt_of_le hSg with h0 | h0
    · right
      constructor
      · exact h0.symm
      · rw [← h0]; ring
    · left; nlinarith
  · rcases eq_or_lt_of_le hSr with h0 | h0
    · right
      constructor
      · exact h0.symm
      · rw [← h0]; ring
    · left; nlinarith

/-- Witness for C7 at Sg = Sr = 1, K_gw = K_rout = 1. -/
theorem recession_monotone_witness :
    ((0:ℝ) ≤ 1 ∧ (0:ℝ) < 1) ∧
    ((gwStep 1 0 0 0 1).2 = min (max 1 0) ((1 - Real.exp (-1)) * max 1 0) ∧
     (gwStep 1 0 0 0 1).1 = 1 - (gwStep 1 0 0 0 1).2 ∧
     0 ≤ (gwStep 1 0 0 0 1).1 ∧
     ((gwStep 1 0 0 0 1).1 < 1 ∨ ((1:ℝ) = 0 ∧ (gwStep 1 0 0 0 1).1 = 0)) ∧
     0 ≤ (srStep 1 0 0 0 1).1 ∧
     ((srStep 1 0 0 0 1).1 < 1 ∨ ((1:ℝ) = 0 ∧ (srStep 1 0 0 0 1).1 = 0))) :=
  ⟨⟨by norm_num, by norm_num⟩,
   recession_monotone 1 1 1 1 (by norm_num) (by norm_num) (by norm_num) (by norm_num)⟩

/-- Channel surface fraction (wflow_w3.py line 822):
ChannelSurface = min(0, 0.007 * Sr ** 0.75); it is also the local
open-water fraction fw_local (line 853). -/
def channelSurface (Sr : ℝ) : ℝ := min 0 (0.007 * Sr ^ (0.75:ℝ))

/-- Local channel evaporation (wflow_w3.py line 974):
Erl = fw_local * FwaterE * Ept with fw_local = ChannelSurface. -/
def Erl_of (Sr FwaterE Ept : ℝ) : ℝ := channelSurface Sr * FwaterE * Ept

/-- C10: for every surface store Sr ≥ 0 the channel surface fraction
min(0, 0.007*Sr^0.75) is 0, hence the local open-water fraction is 0, the
local channel evaporation Erl is identically zero, and the surface-store
update is unaffected by the Erl term. -/
theorem channel_surface_zero (Sr Sr0 FwaterE Ept QR Qg Krout : ℝ) (hSr : 0 ≤ Sr) :
    channelSurface Sr = 0 ∧
    Erl_of Sr FwaterE Ept = 0 ∧
    srStep Sr0 QR (Erl_of Sr FwaterE Ept) Qg Krout = srStep Sr0 QR 0 Qg Krout := by
  have h1 : (0:ℝ) ≤ 0.007 * Sr ^ (0.75:ℝ) := by
    have h2 := Real.rpow_nonneg hSr (0.75:ℝ)
    nlinarith
  have hc : channelSurface Sr = 0 := min_eq_left h1
  have he : Erl_of Sr FwaterE Ept = 0 := by rw [Erl_of, hc]; ring
  refine ⟨hc, he, ?_⟩
  rw [he]

/-- Witness for C10 at Sr = 1. -/
theorem channel_surface_zero_witness :
    (0:ℝ) ≤ 1 ∧
    (channelSurface 1 = 0 ∧
     Erl_of 1 2 3 = 0 ∧
     srStep 5 4 (Erl_of 1 2 3) 6 1 = srStep 5 4 0 6 1) :=
  ⟨by norm_num, channel_surface_zero 1 5 2 3 4 6 1 (by norm_num)⟩

/-- Vegetation cover fraction (wflow_w3.py lines 816-817):
fveg = max(1 - exp(-LAI/LAIref), 0.000001) with LAI = SLA * Mleaf. -/
def fveg_of (SLA Mleaf LAIref : ℝ) : ℝ :=
  max (1 - Real.exp (-(SLA * Mleaf) / LAIref)) 0.000001

/-- Wetting-fraction coefficient (wflow_w3.py line 980):
fER = fveg * ER_coeff * max(0.05, hveg) ** ER_exp. -/
def fER_of (fveg ERcoeff hveg ERexp : ℝ) : ℝ :=
  fveg * ERcoeff * (max 0.05 hveg) ^ ERexp

/-- Wetting point (wflow_w3.py lines 981-989): Pwet = max(0,
scalar((Sveg>0)&(fER>0)&(fER/fveg<1)) * -ln(1 - fER/fveg) * Sveg / fER).
The code evaluates -pcr.ln(1 - fER/fveg) and the division by fER
unconditionally, so for fER >= fveg or fER = 0 PCRaster yields a missing
value where this total-function model returns a number; the model is
faithful on the domain 0 < fER < fveg (where the indicator true-branch is
the computed value and the false-branch multiplies a finite number by
zero), and the theorems below that involve interception assume that
domain. -/
def Pwet_of (Sveg fER fveg : ℝ) : ℝ :=
  max 0 ((if 0 < Sveg ∧ 0 < fER ∧ fER / fveg < 1 then (1:ℝ) else 0) *
    -Real.log (1 - fER / fveg) * Sveg / fER)

/-- Rainfall interception evaporation (wflow_w3.py lines 990-993):
Ei = scalar(T24>0) * (scalar(Pg<Pwet)*fveg*Pg +
scalar(Pg>=Pwet)*(fveg*Pwet + fER*(Pg-Pwet))). -/
def Ei_of (Pg T24 fveg fER Pwet : ℝ) : ℝ :=
  (if 0 < T24 then (1:ℝ) else 0) *
    ((if Pg < Pwet then (1:ℝ) else 0) * fveg * Pg +
     (if Pwet ≤ Pg then (1:ℝ) else 0) * (fveg * Pwet + fER * (Pg - Pwet)))

/-- Aerodynamic coefficient from vegetation roughness (wflow_w3.py lines
858-862): fh = ln(813/max(0.25, hveg) - 5.45), ku1 = 0.359/(fh*(fh+2.3)). -/
def fh_of (hveg : ℝ) : ℝ := Real.log (813 / max 0.25 hveg - 5.45)

/-- Wind coefficient ku1 (wflow_w3.py line 862). -/
def ku1_of (hveg : ℝ) : ℝ := 0.359 / (fh_of hveg * (fh_of hveg + 2.3))

/-- Aerodynamic conductance (wflow_w3.py line 863): ga = max(0.001, ku1*u1),
with the minimum of 0.001 imposed to avoid issues. -/
def ga_of (hveg u1 : ℝ) : ℝ := max 0.001 (ku1_of hveg * u1)

/-- Canopy conductance (wflow_w3.py line 948): gs = fveg * fD * Gsmax. -/
def gs_of (fveg fD Gsmax : ℝ) : ℝ := fveg * fD * Gsmax

/-- Transpiration fraction (wflow_w3.py line 949):
ft = 1/(1 + (keps/(1+keps)) * ga/gs). -/
def ft_of (keps ga gs : ℝ) : ℝ := 1 / (1 + keps / (1 + keps) * ga / gs)

/-- C9 counterexample: the wetting-fraction coefficient fER and the canopy
conductance gs are not floored away from zero before being divided by: with
ER_coeff = 0 the Sveg/fER denominator fER is exactly zero (the code only
guards it with a multiplicative indicator), and with fD = 0 the ga/gs
denominator gs is exactly zero, at inputs where the floors on fveg and ga
are active but do not help. -/
theorem denominator_not_floored_counterexample :
    fER_of (fveg_of 1 1 1) 0 1 1 = 0 ∧ gs_of (fveg_of 1 1 1) 0 1 = 0 := by
  constructor
  · simp [fER_of]
  · simp [gs_of]

/-- C9 (amended): the vegetation cover fraction is floored at 0.000001 and
the aerodynamic conductance at 0.001 for every input, so the fER/fveg
division is always well-defined; the Sveg/fER and ga/gs denominators are not
floored — fER is only guarded by an indicator and gs by upstream data — and
they are nonzero exactly under the extra positivity conditions ER_coeff > 0,
respectively fD*Gsmax ≠ 0. -/
theorem denominator_floors (SLA Mleaf LAIref hveg u1 ERcoeff ERexp fD Gsmax : ℝ) :
    0 < fveg_of SLA Mleaf LAIref ∧
    0.001 ≤ ga_of hveg u1 ∧
    (0 < ERcoeff → 0 < fER_of (fveg_of SLA Mleaf LAIref) ERcoeff hveg ERexp) ∧
    (fD * Gsmax ≠ 0 → gs_of (fveg_of SLA Mleaf LAIref) fD Gsmax ≠ 0) := by
  have hfv : 0 < fveg_of SLA Mleaf LAIref :=
    lt_of_lt_of_le (by norm_num) (le_max_right _ _)
  refine ⟨hfv, le_max_left _ _, ?_, ?_⟩
  · intro hc
    have hb : (0:ℝ) < max 0.05 hveg := lt_of_lt_of_le (by norm_num) (le_max_left _ _)
    have hp : 0 < (max 0.05 hveg) ^ ERexp := Real.rpow_pos_of_pos hb _
    rw [fER_of]
    exact mul_pos (mul_pos hfv hc) hp
  · intro hg
    rcases mul_ne_zero_iff.1 hg with ⟨h1, h2⟩
    rw [gs_of]
    exact mul_ne_zero (mul_ne_zero (ne_of_gt hfv) h1) h2

/-- Witness for C9's amended theorem, discharging the positivity conditions
at ER_coeff = 1, fD = 1, Gsmax = 1. -/
theorem denominator_floors_witness :
    0 < fveg_of 1 1 1 ∧ 0.001 ≤ ga_of 1 1 ∧
    0 < fER_of (fveg_of 1 1 1) 1 1 1 ∧ gs_of (fveg_of 1 1 1) 1 1 ≠ 0 := by
  obtain ⟨h1, h2, h3, h4⟩ := denominator_floors 1 1 1 1 1 1 1 1 1
  exact ⟨h1, h2, h3 (by norm_num), h4 (by norm_num)⟩

/-- Snow routine outputs: free water and dry snow stores, frozen-ground
runoff Rmelt and soil input Ps. -/
structure SnowOut where
  FreeWater : ℝ
  DrySnow : ℝ
  Rmelt : ℝ
  Ps : ℝ

/-- HBV snow routine (wflow_w3.py lines 1009-1041): temperature-band
rain/snow partition, melt and refreeze limited by the available stores,
free-water holding capacity, and the split of the excess into frozen-ground
runoff (T < 0) versus soil input (T >= 0). -/
def snowStep (Pn Temp FW DS TT TTI Cfmax Cfr WHC : ℝ) : SnowOut :=
  let RainFrac := max 0 (min ((Temp - (TT - TTI / 2)) / TTI) 1)
  let SnowFrac := 1 - RainFrac
  let SnowFall := SnowFrac * Pn
  let RainFall := RainFrac * Pn
  let PotSnowMelt := Cfmax * max 0 (Temp - TT)
  let PotRefreezing := Cfmax * Cfr * max (TT - Temp) 0
  let Refreezing := min PotRefreezing FW
  let SnowMelt := min PotSnowMelt DS
  let DS1 := DS + SnowFall + Refreezing - SnowMelt
  let FW1 := FW - Refreezing
  let MaxFreeWater := FW1 * WHC
  let FW2 := FW1 + SnowMelt + RainFall
  let InSoil := max (FW2 - MaxFreeWater) 0
  let FW3 := FW2 - InSoil
  ⟨FW3, DS1, (if Temp < 0 then (1:ℝ) else 0) * InSoil,
    (if 0 ≤ Temp then (1:ℝ) else 0) * InSoil⟩

/-- Surface flux partition (wflow_w3.py lines 1045-1055): saturation-excess
runoff, initial loss, hillslope runoff on soil and impervious fractions via
the tanh infiltration curve; returns (QR, I), the combined runoff and the
infiltration into the top soil layer. -/
def runoffStep (Ps fsat fImp InitLoss Pref PrefImp Rmelt : ℝ) : ℝ × ℝ :=
  let Rsof := fsat * Ps
  let Pi := max 0 (Ps - InitLoss)
  let RhofSoil := max 0 (1 - fsat - fImp) * (Pi - Pref * pcrTanh (Pi / Pref))
  let RhofImp := fImp * (Pi - PrefImp * pcrTanh (Pi / PrefImp))
  let Rhof := RhofSoil + RhofImp
  (Rhof + Rsof + Rmelt, Ps - Rhof - Rsof)

/-- Drainage/interflow partition coefficient (wflow_w3.py lines 1061-1063
and 1096-1098): Rh = tanh(slope_coeff*slope*w) * tanh(Kr_coeff*(Kr-1)*w). -/
def Rh_of (slopeCoeff slope KrCoeff Kr w : ℝ) : ℝ :=
  pcrTanh (slopeCoeff * slope * w) * pcrTanh (KrCoeff * (Kr - 1) * w)

/-- State and flux outputs of one full timestep of the store updates. -/
structure StepOut where
  S0 : ℝ
  Ss : ℝ
  Sd : ℝ
  Sg : ℝ
  Sr : ℝ
  FreeWater : ℝ
  DrySnow : ℝ
  Ei : ℝ
  Ps : ℝ
  Qtot : ℝ

/-- One full timestep of the interception, snow, runoff, soil, groundwater
and surface-store updates (wflow_w3.py lines 979-1169), composed in code
order.  The evapotranspiration demand terms Es, Us, Ud, Ug, Eg0 and the
local channel evaporation Erl, and the saturated-area fraction fsat, are
taken as inputs: they are computed upstream (lines 926-996 and 829-855) and
enter the store water balances only as the fluxes modelled here. -/
def hydroStep
    (S0 Ss Sd Sg Sr FW DS : ℝ)
    (Pg T24 : ℝ)
    (SLA Mleaf LAIref Ssls ERcoeff hveg ERexp : ℝ)
    (TT TTI Cfmax Cfr WHC : ℝ)
    (fsat fImp InitLoss Pref PrefImp : ℝ)
    (slopeCoeff slope KrCoeff : ℝ)
    (S0max Ssmax Sdmax K0sat Kssat Kdsat : ℝ)
    (Es Us Ud Ug Eg0 Erl : ℝ)
    (Kgw Krout : ℝ) : StepOut :=
  let fveg := fveg_of SLA Mleaf LAIref
  let Sveg := Ssls * (SLA * Mleaf)
  let fER := fER_of fveg ERcoeff hveg ERexp
  let Pwet := Pwet_of Sveg fER fveg
  let Ei := Ei_of Pg T24 fveg fER Pwet
  let Pn := Pg - Ei
  let snow := snowStep Pn T24 FW DS TT TTI Cfmax Cfr WHC
  let ro := runoffStep snow.Ps fsat fImp InitLoss Pref PrefImp snow.Rmelt
  let Rh0s := Rh_of slopeCoeff slope KrCoeff (K0sat / Kssat) (S0 / S0max)
  let Rhsd := Rh_of slopeCoeff slope KrCoeff (Kssat / Kdsat) (Ss / Ssmax)
  let top := topLayer S0 S0max K0sat Kssat ro.2 Es Rh0s
  let sh := shallowLayer Ss Ssmax Kssat Kdsat top.drain Us Rhsd
  let dp := deepLayer Sd Sdmax Kdsat sh.drain Ud
  let QR := ro.1 + top.iflow + (sh.iflow + dp.iflow)
  let gw := gwStep Sg dp.drain Eg0 Ug Kgw
  let sr := srStep Sr QR Erl gw.2 Krout
  ⟨top.S, sh.S, dp.S, gw.1, sr.1, snow.FreeWater, snow.DrySnow, Ei, snow.Ps, sr.2⟩

theorem exp_neg_one_lt : Real.exp (-1) < 3/4 := by
  have h43 : (4:ℝ)/3 < Real.exp 1 := lt_trans (by norm_num) Real.exp_one_gt_d9
  rw [Real.exp_neg]
  have h2 := inv_strictAnti₀ (by norm_num : (0:ℝ) < 4/3) h43
  norm_num at h2
  exact h2

theorem fveg_val : fveg_of 1 1 1 = 1 - Real.exp (-1) := by
  rw [fveg_of, show -((1:ℝ) * 1) / 1 = -1 by norm_num]
  exact max_eq_left (by nlinarith [exp_neg_one_lt])

theorem fER_val : fER_of (fveg_of 1 1 1) (1/2) 1 0 = (1 - Real.exp (-1)) * (1/2) := by
  rw [fER_of, fveg_val, max_eq_right (by norm_num : (0.05:ℝ) ≤ 1), Real.rpow_zero, mul_one]

theorem fER_val_pos : 0 < fER_of (fveg_of 1 1 1) (1/2) 1 0 := by
  rw [fER_val]
  nlinarith [exp_neg_one_lt]

theorem fER_val_lt : fER_of (fveg_of 1 1 1) (1/2) 1 0 < fveg_of 1 1 1 := by
  rw [fER_val, fveg_val]
  nlinarith [exp_neg_one_lt]

/-- C8 counterexample: with 24-hour mean temperature -1/4 (sub-zero),
precipitation 1, zero prior snow stores, canopy parameters inside the
defined interception domain (ER_coeff = 1/2, so 0 < fER < fveg and the
code's logarithm and divisions are all defined, with Ei = 0 because
T24 ≤ 0), and the snow-partition parameters TT = 0, TTI = 1 (the model
defaults): the rain fraction is 1/4 rather than 0, so only 3/4 of the
precipitation accumulates as dry snow — DrySnow_end = 3/4, not the full
precipitation 1. -/
theorem snow_subzero_counterexample :
    (-1/4 : ℝ) < 0 ∧ (0:ℝ) ≤ 1 ∧
    0 < fER_of (fveg_of 1 1 1) (1/2) 1 0 ∧
    fER_of (fveg_of 1 1 1) (1/2) 1 0 < fveg_of 1 1 1 ∧
    (hydroStep 0 0 0 0 0 0 0 1 (-1/4) 1 1 1 1 (1/2) 1 0 0 1 0 0 0
        0 0 0 1 1 0 0 0 1 1 1 1 1 1 0 0 0 0 0 0 1 1).DrySnow = 3/4 ∧
    ((3:ℝ)/4) ≠ 1 := by
  have hEi : Ei_of 1 (-1/4) (fveg_of 1 1 1) (fER_of (fveg_of 1 1 1) (1/2) 1 0)
      (Pwet_of (1 * (1 * 1)) (fER_of (fveg_of 1 1 1) (1/2) 1 0) (fveg_of 1 1 1)) = 0 := by
    rw [Ei_of, if_neg (by norm_num : ¬ ((0:ℝ) < -1/4)), zero_mul]
  refine ⟨by norm_num, by norm_num, fER_val_pos, fER_val_lt, ?_, by norm_num⟩
  simp only [hydroStep, snowStep, hEi]
  norm_num [min_def, max_def]

/-- All-snow regime of the snow routine: if the temperature is at or below
the lower edge of the rain/snow transition band (and strictly below TT),
starting from empty snow stores, the whole input Pn becomes dry snow, free
water stays zero, and no water leaves the snowpack. -/
theorem snowStep_all_snow (Pn Temp TT TTI Cfmax Cfr WHC : ℝ)
    (hTsnow : Temp ≤ TT - TTI / 2) (hTTI : 0 < TTI)
    (hCfmax : 0 ≤ Cfmax) (hCfr : 0 ≤ Cfr) :
    snowStep Pn Temp 0 0 TT TTI Cfmax Cfr WHC = ⟨0, Pn, 0, 0⟩ := by
  have hnum : (Temp - (TT - TTI / 2)) / TTI ≤ 0 :=
    div_nonpos_of_nonpos_of_nonneg (by linarith) (le_of_lt hTTI)
  have hRF : max 0 (min ((Temp - (TT - TTI / 2)) / TTI) 1) = 0 :=
    max_eq_left (le_trans (min_le_left _ _) hnum)
  have hPSM : max 0 (Temp - TT) = 0 := max_eq_left (by linarith)
  have hPR : (0:ℝ) ≤ Cfmax * Cfr * max (TT - Temp) 0 :=
    mul_nonneg (mul_nonneg hCfmax hCfr) (le_max_right _ _)
  simp [snowStep, hRF, hPSM, min_eq_right hPR]

/-- C8 (amended): for a timestep whose 24-hour mean temperature is at or
below zero and also at or below the rain/snow transition lower bound
TT - TTI/2 (with TTI > 0 and nonnegative melt and refreeze coefficients),
with the canopy parameters inside the domain where the code's interception
arithmetic is defined (0 < fER < fveg), starting with zero snow stores:
the canopy interception evaporation is zero, the entire precipitation
accumulates as dry snow (DrySnow_end = P), free water ends at zero, and
the input to the soil is zero. -/
theorem snow_accumulation
    (S0 Ss Sd Sg Sr Pg T24 SLA Mleaf LAIref Ssls ERcoeff hveg ERexp
     TT TTI Cfmax Cfr WHC fsat fImp InitLoss Pref PrefImp slopeCoeff slope KrCoeff
     S0max Ssmax Sdmax K0sat Kssat Kdsat Es Us Ud Ug Eg0 Erl Kgw Krout : ℝ)
    (hT : T24 ≤ 0) (hTsnow : T24 ≤ TT - TTI / 2) (hTTI : 0 < TTI)
    (hCfmax : 0 ≤ Cfmax) (hCfr : 0 ≤ Cfr)
    (hfER0 : 0 < fER_of (fveg_of SLA Mleaf LAIref) ERcoeff hveg ERexp)
    (hfER1 : fER_of (fveg_of SLA Mleaf LAIref) ERcoeff hveg ERexp <
      fveg_of SLA Mleaf LAIref) :
    (hydroStep S0 Ss Sd Sg Sr 0 0 Pg T24 SLA Mleaf LAIref Ssls ERcoeff hveg ERexp
        TT TTI Cfmax Cfr WHC fsat fImp InitLoss Pref PrefImp slopeCoeff slope KrCoeff
        S0max Ssmax Sdmax K0sat Kssat Kdsat Es Us Ud Ug Eg0 Erl Kgw Krout).Ei = 0 ∧
    (hydroStep S0 Ss Sd Sg Sr 0 0 Pg T24 SLA Mleaf LAIref Ssls ERcoeff hveg ERexp
        TT TTI Cfmax Cfr WHC fsat fImp InitLoss Pref PrefImp slopeCoeff slope KrCoeff
        S0max Ssmax Sdmax K0sat Kssat Kdsat Es Us Ud Ug Eg0 Erl Kgw Krout).DrySnow = Pg ∧
    (hydroStep S0 Ss Sd Sg Sr 0 0 Pg T24 SLA Mleaf LAIref Ssls ERcoeff hveg ERexp
        TT TTI Cfmax Cfr WHC fsat fImp InitLoss Pref PrefImp slopeCoeff slope KrCoeff
        S0max Ssmax Sdmax K0sat Kssat Kdsat Es Us Ud Ug Eg0 Erl Kgw Krout).FreeWater = 0 ∧
    (hydroStep S0 Ss Sd Sg Sr 0 0 Pg T24 SLA Mleaf LAIref Ssls ERcoeff hveg ERexp
        TT TTI Cfmax Cfr WHC fsat fImp InitLoss Pref PrefImp slopeCoeff slope KrCoeff
        S0max Ssmax Sdmax K0sat Kssat Kdsat Es Us Ud Ug Eg0 Erl Kgw Krout).Ps = 0 := by
  have hEi : Ei_of Pg T24 (fveg_of SLA Mleaf LAIref)
      (fER_of (fveg_of SLA Mleaf LAIref) ERcoeff hveg ERexp)
      (Pwet_of (Ssls * (SLA * Mleaf)) (fER_of (fveg_of SLA Mleaf LAIref) ERcoeff hveg ERexp)
        (fveg_of SLA Mleaf LAIref)) = 0 := by
    rw [Ei_of, if_neg (not_lt.2 hT), zero_mul]
  have hsnow := snowStep_all_snow Pg T24 TT TTI Cfmax Cfr WHC hTsnow hTTI hCfmax hCfr
  refine ⟨?_, ?_, ?_, ?_⟩ <;> simp only [hydroStep, hEi, sub_zero, hsnow]

/-- Witness for C8's amended theorem at T24 = -1, TT = 0, TTI = 1,
precipitation 2, ER_coeff = 1/2 (defined interception domain). -/
theorem snow_accumulation_witness :
    ((-1:ℝ) ≤ 0 ∧ (-1:ℝ) ≤ 0 - 1 / 2 ∧ (0:ℝ) < 1 ∧ (0:ℝ) ≤ 1 ∧ (0:ℝ) ≤ 1 ∧
     0 < fER_of (fveg_of 1 1 1) (1/2) 1 0 ∧
     fER_of (fveg_of 1 1 1) (1/2) 1 0 < fveg_of 1 1 1) ∧
    ((hydroStep 0 0 0 0 0 0 0 2 (-1) 1 1 1 1 (1/2) 1 0 0 1 1 1 0
        0 0 0 1 1 0 0 0 1 1 1 1 1 1 0 0 0 0 0 0 1 1).Ei = 0 ∧
     (hydroStep 0 0 0 0 0 0 0 2 (-1) 1 1 1 1 (1/2) 1 0 0 1 1 1 0
        0 0 0 1 1 0 0 0 1 1 1 1 1 1 0 0 0 0 0 0 1 1).DrySnow = 2 ∧
     (hydroStep 0 0 0 0 0 0 0 2 (-1) 1 1 1 1 (1/2) 1 0 0 1 1 1 0
        0 0 0 1 1 0 0 0 1 1 1 1 1 1 0 0 0 0 0 0 1 1).FreeWater = 0 ∧
     (hydroStep 0 0 0 0 0 0 0 2 (-1) 1 1 1 1 (1/2) 1 0 0 1 1 1 0
        0 0 0 1 1 0 0 0 1 1 1 1 1 1 0 0 0 0 0 0 1 1).Ps = 0) :=
  ⟨⟨by norm_num, by norm_num, by norm_num, by norm_num, by norm_num,
    fER_val_pos, fER_val_lt⟩,
   snow_accumulation 0 0 0 0 0 2 (-1) 1 1 1 1 (1/2) 1 0 0 1 1 1 0
     0 0 0 1 1 0 0 0 1 1 1 1 1 1 0 0 0 0 0 0 1 1
     (by norm_num) (by norm_num) (by norm_num) (by norm_num) (by norm_num)
     fER_val_pos fER_val_lt⟩

theorem sub_max_sub (a b : ℝ) : a - max (a - b) 0 = min a b := by
  rcases le_total a b with h | h
  · rw [max_eq_right (by linarith), sub_zero, min_eq_left h]
  · rw [max_eq_left (by linarith), min_eq_right h]
    ring

/-- The snow stores stay nonnegative across one snow-routine step, provided
the input Pn, the prior stores and the melt/refreeze/holding parameters are
nonnegative. -/
theorem snowStep_nonneg (Pn Temp FW DS TT TTI Cfmax Cfr WHC : ℝ)
    (hPn : 0 ≤ Pn) (hFW : 0 ≤ FW) (hDS : 0 ≤ DS)
    (hCfmax : 0 ≤ Cfmax) (hCfr : 0 ≤ Cfr) (hWHC : 0 ≤ WHC) :
    0 ≤ (snowStep Pn Temp FW DS TT TTI Cfmax Cfr WHC).FreeWater ∧
    0 ≤ (snowStep Pn Temp FW DS TT TTI Cfmax Cfr WHC).DrySnow := by
  simp only [snowStep]
  set RF := max 0 (min ((Temp - (TT - TTI / 2)) / TTI) 1) with hRF
  set PSM := Cfmax * max 0 (Temp - TT) with hPSM
  set PR := Cfmax * Cfr * max (TT - Temp) 0 with hPR
  have hRF0 : 0 ≤ RF := le_max_left _ _
  have hRF1 : RF ≤ 1 := max_le (by norm_num) (min_le_right _ _)
  have hPSM0 : 0 ≤ PSM := mul_nonneg hCfmax (le_max_left _ _)
  have hPR0 : 0 ≤ PR := mul_nonneg (mul_nonneg hCfmax hCfr) (le_max_right _ _)
  have h1 : min PR FW ≤ FW := min_le_right _ _
  have h2 : 0 ≤ min PSM DS := le_min hPSM0 hDS
  have h3 : min PSM DS ≤ DS := min_le_right _ _
  have h4 : 0 ≤ min PR FW := le_min hPR0 hFW
  have h5 : 0 ≤ RF * Pn := mul_nonneg hRF0 hPn
  have h6 : 0 ≤ (1 - RF) * Pn := mul_nonneg (by linarith) hPn
  constructor
  · rw [sub_max_sub]
    exact le_min (by linarith) (mul_nonneg (by linarith) hWHC)
  · linarith

/-- The surface store stays nonnegative after its update: the discharge is
capped by the (already nonnegative) store. -/
theorem srStep_nonneg (Sr QR Erl Qg Krout : ℝ) : 0 ≤ (srStep Sr QR Erl Qg Krout).1 := by
  simp only [srStep]
  have h2 : (0:ℝ) ≤ max 0 (Sr + QR - Erl + Qg) := le_max_left _ _
  have h1 : min (max 0 (Sr + QR - Erl + Qg))
      ((1 - Real.exp (-Krout)) * max 0 (Sr + QR - Erl + Qg)) ≤
      max 0 (Sr + QR - Erl + Qg) := min_le_left _ _
  have h3 : max 0 (min (max 0 (Sr + QR - Erl + Qg))
      ((1 - Real.exp (-Krout)) * max 0 (Sr + QR - Erl + Qg))) ≤
      max 0 (Sr + QR - Erl + Qg) := max_le h2 h1
  linarith

/-- The vegetation cover fraction never exceeds one: both arguments of the
max at wflow_w3.py line 817 are below one. -/
theorem fveg_le_one (SLA Mleaf LAIref : ℝ) : fveg_of SLA Mleaf LAIref ≤ 1 := by
  rw [fveg_of]
  apply max_le
  · linarith [Real.exp_pos (-(SLA * Mleaf) / LAIref)]
  · norm_num

/-- On the domain where the code's interception arithmetic is defined
(fER below the cover fraction, which is at most one), the interception
evaporation never exceeds the precipitation. -/
theorem Ei_le_precip (Pg T24 fveg fER Pwet : ℝ) (hPg : 0 ≤ Pg) (hf1 : fveg ≤ 1)
    (hfER : fER ≤ fveg) (hPwet : 0 ≤ Pwet) :
    Ei_of Pg T24 fveg fER Pwet ≤ Pg := by
  rw [Ei_of]
  rcases le_or_lt T24 0 with hT | hT
  · rw [if_neg (not_lt.2 hT)]
    nlinarith
  · rw [if_pos hT]
    rcases lt_or_le Pg Pwet with hP | hP
    · rw [if_pos hP, if_neg (not_le.2 hP)]
      nlinarith [mul_nonneg (sub_nonneg.2 hf1) hPg]
    · rw [if_neg (not_lt.2 hP), if_pos hP]
      nlinarith [mul_nonneg (sub_nonneg.2 hf1) hPwet,
        mul_nonneg (sub_nonneg.2 (le_trans hfER hf1)) (sub_nonneg.2 hP)]

/-- C5: after a full timestep the bounded stores satisfy
0 ≤ S0 ≤ S0max, 0 ≤ Ss ≤ Ssmax, 0 ≤ Sd ≤ Sdmax, Sr ≥ 0, FreeWater ≥ 0 and
DrySnow ≥ 0, provided these bounds held at the start, precipitation and the
relevant parameters are nonnegative, and the canopy parameters lie in the
domain on which the code's interception arithmetic is defined
(0 < fER < fveg; outside it PCRaster's ln and division yield missing
values).  There the interception satisfies Ei ≤ fveg*Pg ≤ Pg, so the
snow-routine input Pn = Pg - Ei is nonnegative and every bound is kept. -/
theorem store_bounds
    (S0 Ss Sd Sg Sr FW DS Pg T24 SLA Mleaf LAIref Ssls ERcoeff hveg ERexp
     TT TTI Cfmax Cfr WHC fsat fImp InitLoss Pref PrefImp slopeCoeff slope KrCoeff
     S0max Ssmax Sdmax K0sat Kssat Kdsat Es Us Ud Ug Eg0 Erl Kgw Krout : ℝ)
    (hS00 : 0 ≤ S0) (hS0m : S0 ≤ S0max) (hSs0 : 0 ≤ Ss) (hSsm : Ss ≤ Ssmax)
    (hSd0 : 0 ≤ Sd) (hSdm : Sd ≤ Sdmax) (hSr : 0 ≤ Sr)
    (hFW : 0 ≤ FW) (hDS : 0 ≤ DS) (hPg : 0 ≤ Pg)
    (hCfmax : 0 ≤ Cfmax) (hCfr : 0 ≤ Cfr) (hWHC : 0 ≤ WHC)
    (hfER0 : 0 < fER_of (fveg_of SLA Mleaf LAIref) ERcoeff hveg ERexp)
    (hfER1 : fER_of (fveg_of SLA Mleaf LAIref) ERcoeff hveg ERexp <
      fveg_of SLA Mleaf LAIref) :
    0 ≤ (hydroStep S0 Ss Sd Sg Sr FW DS Pg T24 SLA Mleaf LAIref Ssls ERcoeff hveg ERexp
        TT TTI Cfmax Cfr WHC fsat fImp InitLoss Pref PrefImp slopeCoeff slope KrCoeff
        S0max Ssmax Sdmax K0sat Kssat Kdsat Es Us Ud Ug Eg0 Erl Kgw Krout).S0 ∧
    (hydroStep S0 Ss Sd Sg Sr FW DS Pg T24 SLA Mleaf LAIref Ssls ERcoeff hveg ERexp
        TT TTI Cfmax Cfr WHC fsat fImp InitLoss Pref PrefImp slopeCoeff slope KrCoeff
        S0max Ssmax Sdmax K0sat Kssat Kdsat Es Us Ud Ug Eg0 Erl Kgw Krout).S0 ≤ S0max ∧
    0 ≤ (hydroStep S0 Ss Sd Sg Sr FW DS Pg T24 SLA Mleaf LAIref Ssls ERcoeff hveg ERexp
        TT TTI Cfmax Cfr WHC fsat fImp InitLoss Pref PrefImp slopeCoeff slope KrCoeff
        S0max Ssmax Sdmax K0sat Kssat Kdsat Es Us Ud Ug Eg0 Erl Kgw Krout).Ss ∧
    (hydroStep S0 Ss Sd Sg Sr FW DS Pg T24 SLA Mleaf LAIref Ssls ERcoeff hveg ERexp
        TT TTI Cfmax Cfr WHC fsat fImp InitLoss Pref PrefImp slopeCoeff slope KrCoeff
        S0max Ssmax Sdmax K0sat Kssat Kdsat Es Us Ud Ug Eg0 Erl Kgw Krout).Ss ≤ Ssmax ∧
    0 ≤ (hydroStep S0 Ss Sd Sg Sr FW DS Pg T24 SLA Mleaf LAIref Ssls ERcoeff hveg ERexp
        TT TTI Cfmax Cfr WHC fsat fImp InitLoss Pref PrefImp slopeCoeff slope KrCoeff
        S0max Ssmax Sdmax K0sat Kssat Kdsat Es Us Ud Ug Eg0 Erl Kgw Krout).Sd ∧
    (hydroStep S0 Ss Sd Sg Sr FW DS Pg T24 SLA Mleaf LAIref Ssls ERcoeff hveg ERexp
        TT TTI Cfmax Cfr WHC fsat fImp InitLoss Pref PrefImp slopeCoeff slope KrCoeff
        S0max Ssmax Sdmax K0sat Kssat Kdsat Es Us Ud Ug Eg0 Erl Kgw Krout).Sd ≤ Sdmax ∧
    0 ≤ (hydroStep S0 Ss Sd Sg Sr FW DS Pg T24 SLA Mleaf LAIref Ssls ERcoeff hveg ERexp
        TT TTI Cfmax Cfr WHC fsat fImp InitLoss Pref PrefImp slopeCoeff slope KrCoeff
        S0max Ssmax Sdmax K0sat Kssat Kdsat Es Us Ud Ug Eg0 Erl Kgw Krout).Sr ∧
    0 ≤ (hydroStep S0 Ss Sd Sg Sr FW DS Pg T24 SLA Mleaf LAIref Ssls ERcoeff hveg ERexp
        TT TTI Cfmax Cfr WHC fsat fImp InitLoss Pref PrefImp slopeCoeff slope KrCoeff
        S0max Ssmax Sdmax K0sat Kssat Kdsat Es Us Ud Ug Eg0 Erl Kgw Krout).FreeWater ∧
    0 ≤ (hydroStep S0 Ss Sd Sg Sr FW DS Pg T24 SLA Mleaf LAIref Ssls ERcoeff hveg ERexp
        TT TTI Cfmax Cfr WHC fsat fImp InitLoss Pref PrefImp slopeCoeff slope KrCoeff
        S0max Ssmax Sdmax K0sat Kssat Kdsat Es Us Ud Ug Eg0 Erl Kgw Krout).DrySnow := by
  have hSmax0 : 0 ≤ S0max := le_trans hS00 hS0m
  have hSmaxs : 0 ≤ Ssmax := le_trans hSs0 hSsm
  have hSmaxd : 0 ≤ Sdmax := le_trans hSd0 hSdm
  have hPw : 0 ≤ Pwet_of (Ssls * (SLA * Mleaf))
      (fER_of (fveg_of SLA Mleaf LAIref) ERcoeff hveg ERexp)
      (fveg_of SLA Mleaf LAIref) := by
    simp only [Pwet_of]
    exact le_max_left _ _
  have hEi : Ei_of Pg T24 (fveg_of SLA Mleaf LAIref)
      (fER_of (fveg_of SLA Mleaf LAIref) ERcoeff hveg ERexp)
      (Pwet_of (Ssls * (SLA * Mleaf))
        (fER_of (fveg_of SLA Mleaf LAIref) ERcoeff hveg ERexp)
        (fveg_of SLA Mleaf LAIref)) ≤ Pg :=
    Ei_le_precip Pg T24 (fveg_of SLA Mleaf LAIref)
      (fER_of (fveg_of SLA Mleaf LAIref) ERcoeff hveg ERexp)
      (Pwet_of (Ssls * (SLA * Mleaf))
        (fER_of (fveg_of SLA Mleaf LAIref) ERcoeff hveg ERexp)
        (fveg_of SLA Mleaf LAIref))
      hPg (fveg_le_one SLA Mleaf LAIref) (le_of_lt hfER1) hPw
  have hsnow := snowStep_nonneg
    (Pg - Ei_of Pg T24 (fveg_of SLA Mleaf LAIref)
      (fER_of (fveg_of SLA Mleaf LAIref) ERcoeff hveg ERexp)
      (Pwet_of (Ssls * (SLA * Mleaf))
        (fER_of (fveg_of SLA Mleaf LAIref) ERcoeff hveg ERexp)
        (fveg_of SLA Mleaf LAIref)))
    T24 FW DS TT TTI Cfmax Cfr WHC (by linarith) hFW hDS hCfmax hCfr hWHC
  refine ⟨?_, ?_, ?_, ?_, ?_, ?_, ?_, ?_, ?_⟩
  · simp only [hydroStep, topLayer]
    exact le_max_left _ _
  · simp only [hydroStep, topLayer]
    exact max_le hSmax0 (min_le_right _ _)
  · simp only [hydroStep, shallowLayer]
    exact le_max_left _ _
  · simp only [hydroStep, shallowLayer]
    exact max_le hSmaxs (min_le_right _ _)
  · simp only [hydroStep, deepLayer]
    exact le_max_left _ _
  · simp only [hydroStep, deepLayer]
    exact max_le hSmaxd (min_le_right _ _)
  · simp only [hydroStep]
    exact srStep_nonneg _ _ _ _ _
  · simp only [hydroStep]
    exact hsnow.1
  · simp only [hydroStep]
    exact hsnow.2

/-- Witness for C5's theorem at a concrete all-bounds-satisfying input
with Pg = 0, T24 = -1 and ER_coeff = 1/2 (defined interception domain). -/
theorem store_bounds_witness :
    ((0:ℝ) ≤ 0 ∧ (0:ℝ) ≤ 1 ∧
     0 < fER_of (fveg_of 1 1 1) (1/2) 1 0 ∧
     fER_of (fveg_of 1 1 1) (1/2) 1 0 < fveg_of 1 1 1) ∧
    (0 ≤ (hydroStep 0 0 0 0 0 0 0 0 (-1) 1 1 1 1 (1/2) 1 0 0 1 1 1 1
        0 0 0 1 1 0 0 0 1 1 1 1 1 1 0 0 0 0 0 0 1 1).S0 ∧
     (hydroStep 0 0 0 0 0 0 0 0 (-1) 1 1 1 1 (1/2) 1 0 0 1 1 1 1
        0 0 0 1 1 0 0 0 1 1 1 1 1 1 0 0 0 0 0 0 1 1).S0 ≤ 1 ∧
     0 ≤ (hydroStep 0 0 0 0 0 0 0 0 (-1) 1 1 1 1 (1/2) 1 0 0 1 1 1 1
        0 0 0 1 1 0 0 0 1 1 1 1 1 1 0 0 0 0 0 0 1 1).Ss ∧
     (hydroStep 0 0 0 0 0 0 0 0 (-1) 1 1 1 1 (1/2) 1 0 0 1 1 1 1
        0 0 0 1 1 0 0 0 1 1 1 1 1 1 0 0 0 0 0 0 1 1).Ss ≤ 1 ∧
     0 ≤ (hydroStep 0 0 0 0 0 0 0 0 (-1) 1 1 1 1 (1/2) 1 0 0 1 1 1 1
        0 0 0 1 1 0 0 0 1 1 1 1 1 1 0 0 0 0 0 0 1 1).Sd ∧
     (hydroStep 0 0 0 0 0 0 0 0 (-1) 1 1 1 1 (1/2) 1 0 0 1 1 1 1
        0 0 0 1 1 0 0 0 1 1 1 1 1 1 0 0 0 0 0 0 1 1).Sd ≤ 1 ∧
     0 ≤ (hydroStep 0 0 0 0 0 0 0 0 (-1) 1 1 1 1 (1/2) 1 0 0 1 1 1 1
        0 0 0 1 1 0 0 0 1 1 1 1 1 1 0 0 0 0 0 0 1 1).Sr ∧
     0 ≤ (hydroStep 0 0 0 0 0 0 0 0 (-1) 1 1 1 1 (1/2) 1 0 0 1 1 1 1
        0 0 0 1 1 0 0 0 1 1 1 1 1 1 0 0 0 0 0 0 1 1).FreeWater ∧
     0 ≤ (hydroStep 0 0 0 0 0 0 0 0 (-1) 1 1 1 1 (1/2) 1 0 0 1 1 1 1
        0 0 0 1 1 0 0 0 1 1 1 1 1 1 0 0 0 0 0 0 1 1).DrySnow) := by
  refine ⟨⟨by norm_num, by norm_num, fER_val_pos, fER_val_lt⟩, ?_⟩
  exact store_bounds 0 0 0 0 0 0 0 0 (-1) 1 1 1 1 (1/2) 1 0 0 1 1 1 1
    0 0 0 1 1 0 0 0 1 1 1 1 1 1 0 0 0 0 0 0 1 1
    (by norm_num) (by norm_num) (by norm_num) (by norm_num) (by norm_num) (by norm_num)
    (by norm_num) (by norm_num) (by norm_num) (by norm_num) (by norm_num) (by norm_num)
    (by norm_num) fER_val_pos fER_val_lt

end

end W3
